import Mathlib

/-!
Verification of the estimate route handler
(`app/api/estimate/route.ts` of the ai-estimator repository).

The handler is shallowly embedded as a pure Lean function.  JavaScript
numbers are modelled as exact rationals, with `none` standing for `NaN`
(infinities and double rounding are not modelled; none of the verified
properties depend on them).  The external `fetch` call and its response
body are inputs to the embedded handler, so every behaviour of the
external inference API can be examined.

The pricing module (`@/lib/pricing`) is imported by the route but its
source is not part of the repository snapshot; it is modelled from the
spec as an abstract `Pricing` structure (rate table, minimum fee,
complexity-multiplier function).
-/

/-- A JavaScript number: `some q` is an ordinary (finite) number, `none` is NaN. -/
abbrev JsNum := Option ℚ

/-- JS multiplication: NaN propagates. -/
def jsMul : JsNum → JsNum → JsNum
  | some a, some b => some (a * b)
  | _, _ => none

/-- `Math.max` on two arguments: NaN if either argument is NaN. -/
def jsMax : JsNum → JsNum → JsNum
  | some a, some b => some (if a ≤ b then b else a)
  | _, _ => none

/-- `Math.min` on two arguments: NaN if either argument is NaN. -/
def jsMin : JsNum → JsNum → JsNum
  | some a, some b => some (if a ≤ b then a else b)
  | _, _ => none

/-- Floor of a rational, computed by flooring integer division. -/
def ratFloor (q : ℚ) : ℤ := q.num.fdiv q.den

/-- `Math.round(x * 100) / 100`, the rounding to two decimals used by the
handler.  `Math.round` rounds half toward positive infinity; NaN propagates. -/
def jsRound2 : JsNum → JsNum
  | some q => some ((ratFloor (q * 100 + 1 / 2) : ℚ) / 100)
  | none => none

/-- A JSON value, as produced by `JSON.parse`.  Object fields are kept in
source order; a duplicate key is resolved to the last occurrence, as in JS. -/
inductive JsVal where
  | jnull
  | jbool (b : Bool)
  | jnum (q : ℚ)
  | jstr (s : String)
  | jarr (elems : List JsVal)
  | jobj (fields : List (String × JsVal))
deriving Repr

/-- JS truthiness of a JSON value (NaN cannot occur in `JSON.parse` output). -/
def truthy : JsVal → Bool
  | .jnull => false
  | .jbool b => b
  | .jnum q => q ≠ 0
  | .jstr s => s ≠ ""
  | .jarr _ => true
  | .jobj _ => true

/-- `v || d` for a possibly-undefined JS value (`none` = undefined). -/
def valOr (v : Option JsVal) (d : JsVal) : JsVal :=
  match v with
  | none => d
  | some x => if truthy x then x else d

/-- Property lookup on a JS object: the last binding of the key wins. -/
def lookupField (fields : List (String × JsVal)) (k : String) : Option JsVal :=
  fields.foldl (fun acc kv => if kv.1 = k then some kv.2 else acc) none

/-- `v[k]` property access for the string keys the handler uses.  Property
access on numbers, booleans and strings yields undefined for these keys;
only objects carry them.  (Access on `null` throws and is handled at the
call site.) -/
def getProp (v : JsVal) (k : String) : Option JsVal :=
  match v with
  | .jobj fields => lookupField fields k
  | _ => none

/-- `v[0]` indexing: first element of an array, first character of a
nonempty string, the "0" property of an object, undefined otherwise. -/
def index0 : JsVal → Option JsVal
  | .jarr (x :: _) => some x
  | .jarr [] => none
  | .jstr s =>
    match s.toList with
    | c :: _ => some (.jstr (String.mk [c]))
    | [] => none
  | .jobj fields => lookupField fields "0"
  | _ => none

/-- JS whitespace trimmed by `Number(string)` conversion. -/
def isJsWs (c : Char) : Bool :=
  c = ' ' || c = '\t' || c = '\n' || c = '\r' || c = '\x0b' || c = '\x0c'

/-- Decimal digit accumulation. -/
def digitsVal (cs : List Char) : Nat :=
  cs.foldl (fun acc c => 10 * acc + (c.toNat - 48)) 0

/-- Split a leading run of decimal digits. -/
def spanDigits (cs : List Char) : List Char × List Char :=
  (cs.takeWhile Char.isDigit, cs.dropWhile Char.isDigit)

/-- Parse the numeric-literal part of a JS `Number(string)` conversion:
`digits [. digits] | . digits`, with an optional decimal exponent.
Returns the value and the unconsumed remainder.  (Hexadecimal literals
and the `Infinity` spellings are not modelled; they convert to NaN here.) -/
def parseJsDecimal (cs : List Char) : Option (ℚ × List Char) :=
  let (intDs, r1) := spanDigits cs
  match r1 with
  | '.' :: r2 =>
    let (fracDs, r3) := spanDigits r2
    if intDs.isEmpty && fracDs.isEmpty then none
    else
      some ((digitsVal intDs : ℚ) + (digitsVal fracDs : ℚ) / ((10 : ℚ) ^ fracDs.length), r3)
  | _ =>
    if intDs.isEmpty then none
    else some ((digitsVal intDs : ℚ), r1)

/-- Apply an optional decimal exponent suffix (`e`/`E` with optional sign). -/
def applyExponent (q : ℚ) (cs : List Char) : Option (ℚ × List Char) :=
  match cs with
  | 'e' :: r | 'E' :: r =>
    let (neg, r1) :=
      match r with
      | '-' :: r2 => (true, r2)
      | '+' :: r2 => (false, r2)
      | _ => (false, r)
    let (expDs, r3) := spanDigits r1
    if expDs.isEmpty then none
    else
      let p : ℚ := (10 : ℚ) ^ digitsVal expDs
      some (if neg then q / p else q * p, r3)
  | _ => some (q, cs)

/-- JS `Number(string)`: trim whitespace, empty string is 0, a signed
decimal literal converts to its value, anything else is NaN. -/
def strToNum (s : String) : Option ℚ :=
  let cs := (s.toList.dropWhile isJsWs).reverse.dropWhile isJsWs |>.reverse
  match cs with
  | [] => some 0
  | _ =>
    let (neg, body) :=
      match cs with
      | '-' :: r => (true, r)
      | '+' :: r => (false, r)
      | _ => (false, cs)
    match parseJsDecimal body with
    | none => none
    | some (q, rest) =>
      match applyExponent q rest with
      | some (q2, []) => some (if neg then -q2 else q2)
      | _ => none

/-- Decimal rendering of a rational whose denominator divides a power of
ten, used by the simplified number-to-string conversion. -/
def ratDecimalString (q : ℚ) : String :=
  let sign := if q.num < 0 then "-" else ""
  let n := q.num.natAbs
  let d := q.den
  if d = 1 then sign ++ toString n
  else
    let k := (List.range 40).find? fun k => d ∣ 10 ^ k
    match k with
    | some k =>
      let scaled := n * (10 ^ k / d)
      let whole := scaled / 10 ^ k
      let frac := scaled % 10 ^ k
      let fracStr := toString frac
      let fracStr := String.mk (List.replicate (k - fracStr.length) '0') ++ fracStr
      let fracStr := String.mk (fracStr.toList.reverse.dropWhile (· = '0')).reverse
      sign ++ toString whole ++ "." ++ fracStr
    | none => sign ++ toString n ++ "/" ++ toString d

mutual
/-- JS `String(v)` conversion.  Number rendering is simplified to plain
decimal notation (no claim constrains the rendered digits). -/
def jsValToString : JsVal → String
  | .jnull => "null"
  | .jbool b => if b then "true" else "false"
  | .jnum q => ratDecimalString q
  | .jstr s => s
  | .jarr l => arrJoin l
  | .jobj _ => "[object Object]"

/-- Array-to-string join: elements separated by commas, `null` elements
rendered empty, as in JS `Array.prototype.toString`. -/
def arrJoin : List JsVal → String
  | [] => ""
  | [x] => elemStr x
  | x :: rest => elemStr x ++ "," ++ arrJoin rest

/-- One array element rendered for the join. -/
def elemStr : JsVal → String
  | .jnull => ""
  | v => jsValToString v
end

/-- JS `Number(v)` conversion of a JSON value.  Objects convert via their
string form "[object Object]", which is NaN. -/
def toNumber : JsVal → JsNum
  | .jnum q => some q
  | .jnull => some 0
  | .jbool b => some (if b then 1 else 0)
  | .jstr s => strToNum s
  | .jarr l => strToNum (jsValToString (.jarr l))
  | .jobj _ => none

/-- The base64 alphabet. -/
def b64Char (n : Nat) : Char :=
  "ABCDEFGHIJKLMNOPQRSTUVWXYZabcdefghijklmnopqrstuvwxyz0123456789+/".toList.getD n 'A'

/-- Standard base64 of a byte list, three bytes at a time with `=` padding. -/
def base64Chunks : List Nat → List Char
  | [] => []
  | [a] => [b64Char (a / 4), b64Char (a % 4 * 16), '=', '=']
  | [a, b] => [b64Char (a / 4), b64Char (a % 4 * 16 + b / 16), b64Char (b % 16 * 4), '=']
  | a :: b :: c :: rest =>
    b64Char (a / 4) :: b64Char (a % 4 * 16 + b / 16) ::
      b64Char (b % 16 * 4 + c / 64) :: b64Char (c % 64) :: base64Chunks rest

/-- `Buffer.from(bytes).toString("base64")`. -/
def base64Encode (bytes : List Nat) : String :=
  String.mk (base64Chunks (bytes.map (· % 256)))

/-- Hexadecimal digit value, for `\u` escapes. -/
def hexVal (c : Char) : Option Nat :=
  let n := c.toNat
  if 48 ≤ n && n ≤ 57 then some (n - 48)
  else if 97 ≤ n && n ≤ 102 then some (n - 87)
  else if 65 ≤ n && n ≤ 70 then some (n - 55)
  else none

/-- Skip JSON whitespace. -/
def skipWs (cs : List Char) : List Char :=
  cs.dropWhile fun c => c = ' ' || c = '\t' || c = '\n' || c = '\r'

/-- Body of a JSON string literal after the opening quote: returns the
decoded characters and the remainder after the closing quote.  Unescaped
control characters are rejected; surrogate-pair recombination for `\u`
escapes is not modelled. -/
def parseStrChars : List Char → Option (List Char × List Char)
  | [] => none
  | '"' :: rest => some ([], rest)
  | '\\' :: esc =>
    match esc with
    | '"' :: rest => do let (s, r) ← parseStrChars rest; pure ('"' :: s, r)
    | '\\' :: rest => do let (s, r) ← parseStrChars rest; pure ('\\' :: s, r)
    | '/' :: rest => do let (s, r) ← parseStrChars rest; pure ('/' :: s, r)
    | 'b' :: rest => do let (s, r) ← parseStrChars rest; pure ('\x08' :: s, r)
    | 'f' :: rest => do let (s, r) ← parseStrChars rest; pure ('\x0c' :: s, r)
    | 'n' :: rest => do let (s, r) ← parseStrChars rest; pure ('\n' :: s, r)
    | 'r' :: rest => do let (s, r) ← parseStrChars rest; pure ('\r' :: s, r)
    | 't' :: rest => do let (s, r) ← parseStrChars rest; pure ('\t' :: s, r)
    | 'u' :: h1 :: h2 :: h3 :: h4 :: rest => do
      let a ← hexVal h1
      let b ← hexVal h2
      let c ← hexVal h3
      let d ← hexVal h4
      let (s, r) ← parseStrChars rest
      pure (Char.ofNat ((a * 16 + b) * 256 + (c * 16 + d)) :: s, r)
    | _ => none
  | c :: rest =>
    if c.toNat < 32 then none
    else do let (s, r) ← parseStrChars rest; pure (c :: s, r)

/-- A JSON number literal: `-?(0|[1-9][0-9]*)(\.[0-9]+)?([eE][+-]?[0-9]+)?`. -/
def parseJsonNumber (cs : List Char) : Option (ℚ × List Char) :=
  let (neg, r0) :=
    match cs with
    | '-' :: r => (true, r)
    | _ => (false, cs)
  let intPart : Option (Nat × List Char) :=
    match r0 with
    | '0' :: r => some (0, r)
    | c :: _ =>
      if c.isDigit then
        let (ds, r) := spanDigits r0
        some (digitsVal ds, r)
      else none
    | [] => none
  match intPart with
  | none => none
  | some (n, r1) =>
    let fracPart : Option (ℚ × List Char) :=
      match r1 with
      | '.' :: r2 =>
        let (ds, r3) := spanDigits r2
        if ds.isEmpty then none
        else some ((n : ℚ) + (digitsVal ds : ℚ) / ((10 : ℚ) ^ ds.length), r3)
      | _ => some ((n : ℚ), r1)
    match fracPart with
    | none => none
    | some (q, r4) =>
      match applyExponent q r4 with
      | none => none
      | some (q2, r5) => some (if neg then -q2 else q2, r5)

mutual
/-- Recursive-descent JSON value parser (fuel-bounded). -/
def parseVal : Nat → List Char → Option (JsVal × List Char)
  | 0, _ => none
  | fuel + 1, cs =>
    match skipWs cs with
    | 't' :: 'r' :: 'u' :: 'e' :: rest => some (.jbool true, rest)
    | 'f' :: 'a' :: 'l' :: 's' :: 'e' :: rest => some (.jbool false, rest)
    | 'n' :: 'u' :: 'l' :: 'l' :: rest => some (.jnull, rest)
    | '"' :: rest => do
      let (s, r) ← parseStrChars rest
      pure (.jstr (String.mk s), r)
    | '[' :: rest =>
      (match skipWs rest with
      | ']' :: r => some (.jarr [], r)
      | inner => do
        let (l, r) ← parseElems fuel inner
        pure (.jarr l, r))
    | '\x7b' :: rest =>
      (match skipWs rest with
      | '\x7d' :: r => some (.jobj [], r)
      | inner => do
        let (fs, r) ← parseMembers fuel inner
        pure (.jobj fs, r))
    | rest => do
      let (q, r) ← parseJsonNumber rest
      pure (.jnum q, r)

/-- One or more comma-separated array elements, then the closing bracket. -/
def parseElems : Nat → List Char → Option (List JsVal × List Char)
  | 0, _ => none
  | fuel + 1, cs => do
    let (v, r) ← parseVal fuel cs
    match skipWs r with
    | ',' :: r2 => do
      let (l, r3) ← parseElems fuel r2
      pure (v :: l, r3)
    | ']' :: r2 => pure ([v], r2)
    | _ => none

/-- One or more comma-separated object members, then the closing brace. -/
def parseMembers : Nat → List Char → Option (List (String × JsVal) × List Char)
  | 0, _ => none
  | fuel + 1, cs => do
    match skipWs cs with
    | '"' :: r => do
      let (k, r1) ← parseStrChars r
      match skipWs r1 with
      | ':' :: r2 => do
        let (v, r3) ← parseVal fuel r2
        match skipWs r3 with
        | ',' :: r4 => do
          let (fs, r5) ← parseMembers fuel r4
          pure ((String.mk k, v) :: fs, r5)
        | '\x7d' :: r4 => pure ([(String.mk k, v)], r4)
        | _ => none
      | _ => none
    | _ => none
end

/-- `JSON.parse` on a string: `some v` on success, `none` when it throws. -/
def jsonParse (s : String) : Option JsVal :=
  match parseVal (2 * s.length + 4) s.toList with
  | some (v, rest) => if (skipWs rest).isEmpty then some v else none
  | none => none

/-- One uploaded image part: its declared media type and raw bytes. -/
structure ImageFile where
  type : String
  bytes : List Nat
deriving DecidableEq, Repr

/-- The parsed multipart form: the optional `service` text field
(`none` when the field is absent) and the uploaded image parts. -/
structure EstimateRequest where
  service : Option String
  images : List ImageFile
deriving DecidableEq, Repr

/-- Modelled from the spec: the pricing module `@/lib/pricing` is imported
by the route but its source is not in the repository snapshot.  The spec
describes it as a static service→rate-per-sqft table, a minimum-job-fee
scalar, and a function from complexity score to multiplicative factor. -/
structure Pricing where
  SERVICE_RATES_PER_SQFT : List (String × ℚ)
  MIN_JOB_FEE : ℚ
  COMPLEXITY_MULTIPLIER : JsNum → JsNum

/-- The body of the external API's HTTP response, as observed through
`r.json()`: either not JSON (so `r.json()` rejects with some message) or
a JSON value. -/
inductive FetchBody where
  | notJson (errMsg : String)
  | json (v : JsVal)
deriving Repr

/-- Outcome of the `fetch` to the inference API: the promise rejects with
an error message (network failure), or an HTTP response arrives with the
given `ok` flag and body.  When `ok` is false the body is never read. -/
inductive FetchOutcome where
  | threw (msg : String)
  | reply (ok : Bool) (body : FetchBody)
deriving Repr

/-- The JSON body of a 200 response, field for field. -/
structure EstimateBody where
  service : String
  area_sqft : JsNum
  complexity : JsNum
  rate : ℚ
  complexity_factor : JsNum
  total : JsNum
  notes : String
  images_analyzed : Nat
  estimation_method : String
deriving DecidableEq, Repr

/-- A response body: an error object or an estimate object. -/
inductive RespBody where
  | error (msg : String)
  | est (e : EstimateBody)
deriving DecidableEq, Repr

/-- The observable result of one handler invocation: HTTP status, JSON
body, and whether the external `fetch` was reached. -/
structure HandlerResult where
  status : Nat
  body : RespBody
  apiCalled : Bool
deriving DecidableEq, Repr

/-- `String(formData.get("service") || "house")`: absent or empty field
falls back to "house". -/
def resolveService : Option String → String
  | none => "house"
  | some s => if s = "" then "house" else s

/-- `!OPENAI_API_KEY`: the credential is missing when unset or empty. -/
def keyMissing : Option String → Bool
  | none => true
  | some s => s = ""

/-- One image converted to a base64 data URL, defaulting the media type. -/
def imageDataUrl (f : ImageFile) : String :=
  "data:" ++ (if f.type = "" then "image/jpeg" else f.type) ++ ";base64," ++
    base64Encode f.bytes

/-- The Smart Estimator lookup table `baseAreaByService`. -/
def baseAreaByService : List (String × ℚ) :=
  [("house", 1500), ("windows", 800), ("roof", 1200), ("driveway", 400), ("gutters", 200)]

/-- Own property names of `Object.prototype`: a plain object literal such
as `baseAreaByService` inherits these, so bracket access with one of these
keys yields the inherited member (a truthy function, or the prototype
object itself for `__proto__`) rather than `undefined`. -/
def objectProtoProps : List String :=
  ["constructor", "hasOwnProperty", "isPrototypeOf", "propertyIsEnumerable",
   "toLocaleString", "toString", "valueOf", "__proto__",
   "__defineGetter__", "__defineSetter__", "__lookupGetter__", "__lookupSetter__"]

/-- `baseAreaByService[service] || 1000` with JS property semantics: an
own entry is kept (JS `||`: a zero entry would fall back, though the
table has none); an absent key gives `undefined`, hence 1000 — unless the
key names an inherited `Object.prototype` member, which is truthy, so
`|| 1000` keeps it and the area is a non-number: its coercion in the
pricing arithmetic is NaN, and the raw member in the response is dropped
by JSON serialization.  The embedding represents that non-number as
`none` (NaN). -/
def smartArea (service : String) : JsNum :=
  match baseAreaByService.lookup service with
  | some v => some (if v ≠ 0 then v else 1000)
  | none => if service ∈ objectProtoProps then none else some 1000

/-- The static Smart Estimator notes string. -/
def smartNotes : String :=
  "Smart Estimator used - AI analysis temporarily unavailable. Estimate based on typical property size for this service type."

/-- The default notes string on the AI path. -/
def defaultNotes : String := "AI-computed from uploaded photos."

/-- `e.message || "Unexpected error"` in the top-level catch. -/
def catchMsg (m : String) : String :=
  if m = "" then "Unexpected error" else m

/-- Message of the TypeError thrown by a property access on `null`
(engine-dependent wording; modelled as a fixed string). -/
def nullAccessMsg (k : String) : String :=
  "Cannot read properties of null (reading " ++ k ++ ")"

/-- `out.choices?.[0]?.message?.content`: `none` means the access threw
(`out` itself was `null`); `some none` means the chain produced
`undefined`; `some (some v)` is the content value. -/
def extractContent (out : JsVal) : Option (Option JsVal) :=
  match out with
  | .jnull => none
  | _ =>
    match getProp out "choices" with
    | none => some none
    | some .jnull => some none
    | some choices =>
      match index0 choices with
      | none => some none
      | some .jnull => some none
      | some first =>
        match getProp first "message" with
        | none => some none
        | some .jnull => some none
        | some message => some (getProp message "content")

/-- The tail of the handler shared by both estimation branches: rate
lookup with the 0.15 nullish default, complexity factor, minimum-fee
floor, two-decimal rounding, and the 200 response body. -/
def finishQuote (p : Pricing) (service : String) (area_sqft complexity : JsNum)
    (notes estimation_method : String) (images_analyzed : Nat) : HandlerResult :=
  let rate := (p.SERVICE_RATES_PER_SQFT.lookup service).getD (0.15 : ℚ)
  let complexity_factor := p.COMPLEXITY_MULTIPLIER complexity
  let subtotal := jsMax (some p.MIN_JOB_FEE) (jsMul (jsMul area_sqft (some rate)) complexity_factor)
  let total := jsRound2 subtotal
  ⟨200, .est ⟨service, area_sqft, complexity, rate, complexity_factor, total,
    notes, images_analyzed, estimation_method⟩, true⟩

/-- Whether a JSON value is `null` (a property access on it would throw). -/
def isNullVal : JsVal → Bool
  | .jnull => true
  | _ => false

/-- The AI-path fields computed from the parsed content value, once the
`parsed = null` throw has been ruled out. -/
def aiFields (parsed : JsVal) : JsNum × JsNum × String :=
  (jsMax (some 0) (toNumber (valOr (getProp parsed "area_sqft") (.jnum 0))),
   jsMin (some 5) (jsMax (some 1) (toNumber (valOr (getProp parsed "complexity") (.jnum (2.5 : ℚ))))),
   jsValToString (valOr (getProp parsed "notes") (.jstr defaultNotes)))

/-- The route handler `POST` of `app/api/estimate/route.ts`, as a function
of the pricing module, the `OPENAI_API_KEY` environment variable, the
parsed form data, and the outcome of the external `fetch`. -/
def POST (p : Pricing) (OPENAI_API_KEY : Option String)
    (req : EstimateRequest) (outcome : FetchOutcome) : HandlerResult :=
  let service := resolveService req.service
  if req.images.isEmpty then
    ⟨400, .error "No images uploaded", false⟩
  else if keyMissing OPENAI_API_KEY then
    ⟨500, .error "Missing OPENAI_API_KEY on server", false⟩
  else
    let dataUrls := req.images.map imageDataUrl
    match outcome with
    | .threw m => ⟨500, .error (catchMsg m), true⟩
    | .reply ok body =>
      if !ok then
        finishQuote p service (smartArea service) (some (2.5 : ℚ))
          smartNotes "smart" dataUrls.length
      else
        match body with
        | .notJson m => ⟨500, .error (catchMsg m), true⟩
        | .json out =>
          match extractContent out with
          | none => ⟨500, .error (catchMsg (nullAccessMsg "choices")), true⟩
          | some contentVal =>
            let content := jsValToString (valOr contentVal (.jstr "\x7b\x7d"))
            let parsed := (jsonParse content).getD (.jobj [])
            if isNullVal parsed then
              ⟨500, .error (catchMsg (nullAccessMsg "area_sqft")), true⟩
            else
              finishQuote p service (aiFields parsed).1 (aiFields parsed).2.1
                (aiFields parsed).2.2 "ai" dataUrls.length

/-- The sample pricing instance used for concrete evaluations: two rate
entries, a minimum fee of 99, and the identity multiplier. -/
def sampleP : Pricing := ⟨[("house", 0.25), ("driveway", 0.12)], 99, fun n => n⟩

/-- A sample uploaded image. -/
def img1 : ImageFile := ⟨"image/png", [1, 2, 3]⟩

/-- An external response body whose single choice carries the given
message content string. -/
def mkOut (content : String) : JsVal :=
  .jobj [("choices", .jarr [.jobj [("message", .jobj [("content", .jstr content)])]])]

/-- `n` is a number in the closed interval `[lo, hi]` (false for NaN). -/
def numInRange (n : JsNum) (lo hi : ℚ) : Prop :=
  ∃ q, n = some q ∧ lo ≤ q ∧ q ≤ hi

/-- `n` is a non-negative number (false for NaN). -/
def nonnegNum (n : JsNum) : Prop :=
  ∃ q, n = some q ∧ 0 ≤ q

theorem finishQuote_200 (p : Pricing) (s : String) (area cx : JsNum)
    (nt m : String) (n : Nat) :
    ∃ b, finishQuote p s area cx nt m n = ⟨200, .est b, true⟩ ∧
      b.service = s ∧ b.area_sqft = area ∧ b.complexity = cx ∧
      b.notes = nt ∧ b.estimation_method = m ∧ b.images_analyzed = n ∧
      b.rate = (p.SERVICE_RATES_PER_SQFT.lookup s).getD (0.15 : ℚ) ∧
      b.complexity_factor = p.COMPLEXITY_MULTIPLIER cx ∧
      b.total = jsRound2 (jsMax (some p.MIN_JOB_FEE)
        (jsMul (jsMul area (some ((p.SERVICE_RATES_PER_SQFT.lookup s).getD (0.15 : ℚ))))
          (p.COMPLEXITY_MULTIPLIER cx))) :=
  ⟨_, rfl, rfl, rfl, rfl, rfl, rfl, rfl, rfl, rfl, rfl⟩

theorem POST_smart (p : Pricing) (key : Option String) (req : EstimateRequest)
    (body : FetchBody) (h1 : req.images.isEmpty = false) (h2 : keyMissing key = false) :
    POST p key req (.reply false body) =
      finishQuote p (resolveService req.service)
        (smartArea (resolveService req.service)) (some (2.5 : ℚ))
        smartNotes "smart" (req.images.map imageDataUrl).length := by
  simp [POST, h1, h2]

theorem POST_threw (p : Pricing) (key : Option String) (req : EstimateRequest)
    (m : String) (h1 : req.images.isEmpty = false) (h2 : keyMissing key = false) :
    POST p key req (.threw m) = ⟨500, .error (catchMsg m), true⟩ := by
  simp [POST, h1, h2]

theorem POST_ai (p : Pricing) (key : Option String) (req : EstimateRequest)
    (out : JsVal) (cv : Option JsVal)
    (h1 : req.images.isEmpty = false) (h2 : keyMissing key = false)
    (hex : extractContent out = some cv)
    (hnn : isNullVal ((jsonParse (jsValToString (valOr cv (.jstr "\x7b\x7d")))).getD (.jobj [])) = false) :
    POST p key req (.reply true (.json out)) =
      finishQuote p (resolveService req.service)
        (aiFields ((jsonParse (jsValToString (valOr cv (.jstr "\x7b\x7d")))).getD (.jobj []))).1
        (aiFields ((jsonParse (jsValToString (valOr cv (.jstr "\x7b\x7d")))).getD (.jobj []))).2.1
        (aiFields ((jsonParse (jsValToString (valOr cv (.jstr "\x7b\x7d")))).getD (.jobj []))).2.2
        "ai" (req.images.map imageDataUrl).length := by
  simp [POST, h1, h2, hex, hnn]

theorem isEmpty_false_of_ne_nil {α : Type} {l : List α} (h : l ≠ []) : l.isEmpty = false := by
  cases l with
  | nil => exact absurd rfl h
  | cons a t => rfl

theorem finishQuote_inv {p : Pricing} {s : String} {area cx : JsNum}
    {nt m : String} {n : Nat} {r : HandlerResult}
    (hr : finishQuote p s area cx nt m n = r) :
    ∃ b, r.status = 200 ∧ r.apiCalled = true ∧ r.body = .est b ∧
      b.service = s ∧ b.area_sqft = area ∧ b.complexity = cx ∧ b.notes = nt ∧
      b.estimation_method = m ∧ b.images_analyzed = n ∧
      b.rate = (p.SERVICE_RATES_PER_SQFT.lookup b.service).getD (0.15 : ℚ) ∧
      b.complexity_factor = p.COMPLEXITY_MULTIPLIER b.complexity ∧
      b.total = jsRound2 (jsMax (some p.MIN_JOB_FEE)
        (jsMul (jsMul b.area_sqft (some b.rate)) b.complexity_factor)) := by
  subst hr
  exact ⟨_, rfl, rfl, rfl, rfl, rfl, rfl, rfl, rfl, rfl, rfl, rfl, rfl⟩

theorem clamp_mem {t : JsNum} {q : ℚ} (h : jsMin (some 5) (jsMax (some 1) t) = some q) :
    1 ≤ q ∧ q ≤ 5 := by
  match t with
  | none => simp [jsMax, jsMin] at h
  | some u =>
    simp only [jsMax, jsMin, Option.some.injEq] at h
    split at h <;> split at h <;> subst h <;> constructor <;> linarith

theorem jsMax0_nonneg {t : JsNum} {q : ℚ} (h : jsMax (some 0) t = some q) : 0 ≤ q := by
  match t with
  | none => simp [jsMax] at h
  | some u =>
    simp only [jsMax, Option.some.injEq] at h
    split at h <;> subst h <;> linarith

theorem jsonParse_emptyObj : jsonParse "\x7b\x7d" = some (.jobj []) := rfl

theorem aiFields_emptyObj : aiFields (.jobj []) = (some 0, some (2.5 : ℚ), defaultNotes) := by
  with_unfolding_all rfl

/-- C1: for every response returned with status 200, the `total` field
equals `round(max(MIN_JOB_FEE, area_sqft × rate × complexity_factor), 2)`,
where `rate` is the rate-table entry for the request's service (0.15 when
the service has no entry) and `complexity_factor` is the multiplier
function applied to the sanitized complexity. -/
theorem C1_total_is_rounded_priced_subtotal (p : Pricing) (key : Option String)
    (req : EstimateRequest) (out : FetchOutcome) (r : HandlerResult)
    (hr : POST p key req out = r) (h200 : r.status = 200) :
    ∃ b, r.body = .est b ∧
      b.service = resolveService req.service ∧
      b.rate = (p.SERVICE_RATES_PER_SQFT.lookup (resolveService req.service)).getD (0.15 : ℚ) ∧
      b.complexity_factor = p.COMPLEXITY_MULTIPLIER b.complexity ∧
      b.total = jsRound2 (jsMax (some p.MIN_JOB_FEE)
        (jsMul (jsMul b.area_sqft (some b.rate)) b.complexity_factor)) := by
  simp only [POST] at hr
  split at hr
  · subst hr; simp at h200
  · split at hr
    · subst hr; simp at h200
    · split at hr
      · subst hr; simp at h200
      · split at hr
        · obtain ⟨b, _, _, hb, hsvc, _, _, _, _, _, hrate, hcf, htot⟩ := finishQuote_inv hr
          exact ⟨b, hb, hsvc, by rw [hrate, hsvc], hcf, htot⟩
        · split at hr
          · subst hr; simp at h200
          · split at hr
            · subst hr; simp at h200
            · split at hr
              · subst hr; simp at h200
              · obtain ⟨b, _, _, hb, hsvc, _, _, _, _, _, hrate, hcf, htot⟩ := finishQuote_inv hr
                exact ⟨b, hb, hsvc, by rw [hrate, hsvc], hcf, htot⟩

theorem C1_witness :
    ∃ b, (⟨200, .est ⟨"driveway", some 400, some (5 / 2 : ℚ), 3 / 25, some (5 / 2 : ℚ),
        some 120, smartNotes, 1, "smart"⟩, true⟩ : HandlerResult).body = .est b ∧
      b.service = resolveService (some "driveway") ∧
      b.rate = (sampleP.SERVICE_RATES_PER_SQFT.lookup (resolveService (some "driveway"))).getD (0.15 : ℚ) ∧
      b.complexity_factor = sampleP.COMPLEXITY_MULTIPLIER b.complexity ∧
      b.total = jsRound2 (jsMax (some sampleP.MIN_JOB_FEE)
        (jsMul (jsMul b.area_sqft (some b.rate)) b.complexity_factor)) :=
  C1_total_is_rounded_priced_subtotal sampleP (some "k") ⟨some "driveway", [img1]⟩
    (.reply false (.notJson "x")) _ (by with_unfolding_all rfl) rfl

/-- C2 (amended): for every valid request (at least one image, credential
configured) where the external call returns a non-OK response, the handler
responds 200 with method "smart", complexity 2.5, and area_sqft given by
`baseAreaByService[service] || 1000` under JS property semantics: the five
table entries for their keys, 1000 for an unrecognized service that is not
an `Object.prototype` property name, but for a service naming an inherited
`Object.prototype` member (such as "toString" or "constructor") the truthy
inherited member leaks through, so the area is a non-number (NaN in the
pricing arithmetic), not 1000. -/
theorem C2_smart_fallback_fields (p : Pricing) (key : Option String)
    (req : EstimateRequest) (body : FetchBody)
    (h1 : req.images ≠ []) (h2 : keyMissing key = false) :
    (∃ b, POST p key req (.reply false body) = ⟨200, .est b, true⟩ ∧
      b.estimation_method = "smart" ∧
      b.area_sqft = smartArea (resolveService req.service) ∧
      b.complexity = some (2.5 : ℚ)) ∧
    smartArea "house" = some 1500 ∧ smartArea "windows" = some 800 ∧
    smartArea "roof" = some 1200 ∧ smartArea "driveway" = some 400 ∧
    smartArea "gutters" = some 200 ∧
    (∀ s, s ≠ "house" → s ≠ "windows" → s ≠ "roof" → s ≠ "driveway" → s ≠ "gutters" →
      s ∉ objectProtoProps → smartArea s = some 1000) ∧
    (∀ s, s ∈ objectProtoProps → smartArea s = none) := by
  refine ⟨?_, by with_unfolding_all rfl, by with_unfolding_all rfl, by with_unfolding_all rfl,
    by with_unfolding_all rfl, by with_unfolding_all rfl, ?_, ?_⟩
  · rw [POST_smart p key req body (isEmpty_false_of_ne_nil h1) h2]
    obtain ⟨b, heq, _, harea, hcx, _, hm, _⟩ :=
      finishQuote_200 p (resolveService req.service)
        (smartArea (resolveService req.service)) (some (2.5 : ℚ))
        smartNotes "smart" (req.images.map imageDataUrl).length
    exact ⟨b, heq, hm, harea, hcx⟩
  · intro s hh hw hrf hd hg hnp
    simp [smartArea, baseAreaByService, List.lookup, beq_eq_false_iff_ne.mpr hh,
      beq_eq_false_iff_ne.mpr hw, beq_eq_false_iff_ne.mpr hrf,
      beq_eq_false_iff_ne.mpr hd, beq_eq_false_iff_ne.mpr hg, hnp]
  · intro s hs
    fin_cases hs <;> with_unfolding_all rfl

theorem C2_counterexample :
    POST sampleP (some "k") ⟨some "toString", [img1]⟩ (.reply false (.json .jnull)) =
      ⟨200, .est ⟨"toString", none, some (5 / 2 : ℚ), 3 / 20, some (5 / 2 : ℚ), none,
        smartNotes, 1, "smart"⟩, true⟩ ∧
    (none : JsNum) ≠ some (1000 : ℚ) := by
  constructor
  · with_unfolding_all rfl
  · intro h
    exact Option.noConfusion h

theorem C2_witness :
    ∃ b, POST sampleP (some "k") ⟨some "driveway", [img1]⟩ (.reply false (.json .jnull)) =
        ⟨200, .est b, true⟩ ∧
      b.estimation_method = "smart" ∧
      b.area_sqft = smartArea (resolveService (some "driveway")) ∧
      b.complexity = some (2.5 : ℚ) :=
  (C2_smart_fallback_fields sampleP (some "k") ⟨some "driveway", [img1]⟩ (.json .jnull)
    (by simp) rfl).1

/-- C3 (amended): for requests with images and a configured credential,
an external call that completes with a non-OK status is swallowed behind
the Smart Estimator fallback and the caller receives 200; but a fetch that
rejects (network-level failure) propagates to the top-level catch and
surfaces as a 500 error response. -/
theorem C3_nonok_swallowed_thrown_fetch_surfaces (p : Pricing) (key : Option String)
    (req : EstimateRequest) (h1 : req.images ≠ []) (h2 : keyMissing key = false) :
    (∀ body, (POST p key req (.reply false body)).status = 200) ∧
    (∀ m, m ≠ "" → POST p key req (.threw m) = ⟨500, .error m, true⟩) := by
  constructor
  · intro body
    rw [POST_smart p key req body (isEmpty_false_of_ne_nil h1) h2]
    rfl
  · intro m hm
    rw [POST_threw p key req m (isEmpty_false_of_ne_nil h1) h2]
    simp [catchMsg, hm]

theorem C3_counterexample :
    (POST sampleP (some "k") ⟨some "house", [img1]⟩ (.threw "fetch failed")).status = 500 ∧
    (POST sampleP (some "k") ⟨some "house", [img1]⟩ (.threw "fetch failed")).body =
      .error "fetch failed" := by
  constructor <;> with_unfolding_all rfl

theorem C3_witness :
    (POST sampleP (some "key") ⟨some "roof", [img1]⟩ (.reply false (.notJson "boom"))).status = 200 ∧
    POST sampleP (some "key") ⟨some "roof", [img1]⟩ (.threw "ECONNREFUSED") =
      ⟨500, .error "ECONNREFUSED", true⟩ :=
  ⟨(C3_nonok_swallowed_thrown_fetch_surfaces sampleP (some "key") ⟨some "roof", [img1]⟩
      (by simp) rfl).1 (.notJson "boom"),
   (C3_nonok_swallowed_thrown_fetch_surfaces sampleP (some "key") ⟨some "roof", [img1]⟩
      (by simp) rfl).2 "ECONNREFUSED" (by decide)⟩

/-- C5 (amended): for requests containing at least one image, a missing
(or empty) `OPENAI_API_KEY` yields 500 with the fixed error message; a
request with no images is rejected with 400 before the credential check. -/
theorem C5_missing_key_500_when_images_present (p : Pricing) (key : Option String)
    (req : EstimateRequest) (out : FetchOutcome)
    (h1 : req.images ≠ []) (h2 : keyMissing key = true) :
    POST p key req out = ⟨500, .error "Missing OPENAI_API_KEY on server", false⟩ := by
  simp [POST, isEmpty_false_of_ne_nil h1, h2]

theorem C5_counterexample :
    keyMissing none = true ∧
    POST sampleP none ⟨none, []⟩ (.reply false (.json .jnull)) =
      ⟨400, .error "No images uploaded", false⟩ :=
  ⟨rfl, rfl⟩

theorem C5_witness :
    POST sampleP (some "") ⟨some "house", [img1]⟩ (.threw "x") =
      ⟨500, .error "Missing OPENAI_API_KEY on server", false⟩ :=
  C5_missing_key_500_when_images_present sampleP (some "") ⟨some "house", [img1]⟩
    (.threw "x") (by simp) rfl

/-- C6: every request with zero image parts is answered 400 with error
"No images uploaded", and the external fetch is never reached
(`apiCalled = false`), whatever the credential and outcome would be. -/
theorem C6_no_images_400_no_fetch (p : Pricing) (key : Option String)
    (svc : Option String) (out : FetchOutcome) :
    POST p key ⟨svc, []⟩ out = ⟨400, .error "No images uploaded", false⟩ := rfl

/-- C9: a request whose service field is the empty string is handled
identically to one with no service field, and both resolve the service
to "house" for the prompt, lookups and response echo. -/
theorem C9_empty_service_is_absent_service (p : Pricing) (key : Option String)
    (imgs : List ImageFile) (out : FetchOutcome) :
    POST p key ⟨some "", imgs⟩ out = POST p key ⟨none, imgs⟩ out ∧
    resolveService (some "") = "house" ∧ resolveService none = "house" :=
  ⟨rfl, rfl, rfl⟩

/-- C10: the handler is deterministic: identical form data, identical
credential and an identical external outcome produce identical results. -/
theorem C10_deterministic (p : Pricing) (key1 key2 svc1 svc2 : Option String)
    (imgs1 imgs2 : List ImageFile) (out1 out2 : FetchOutcome)
    (h1 : svc1 = svc2) (h2 : imgs1 = imgs2) (h3 : key1 = key2) (h4 : out1 = out2) :
    POST p key1 ⟨svc1, imgs1⟩ out1 = POST p key2 ⟨svc2, imgs2⟩ out2 := by
  subst h1; subst h2; subst h3; subst h4; rfl

theorem C10_witness :
    POST sampleP (some "k") ⟨some "house", [img1]⟩ (.threw "t") =
      POST sampleP (some "k") ⟨some "house", [img1]⟩ (.threw "t") :=
  C10_deterministic sampleP (some "k") (some "k") (some "house") (some "house")
    [img1] [img1] (.threw "t") (.threw "t") rfl rfl rfl rfl

theorem aiFields_complexity_clamped {v : JsVal} {q : ℚ}
    (h : (aiFields v).2.1 = some q) : 1 ≤ q ∧ q ≤ 5 :=
  clamp_mem h

theorem aiFields_area_nonneg {v : JsVal} {q : ℚ}
    (h : (aiFields v).1 = some q) : 0 ≤ q :=
  jsMax0_nonneg h

/-- C4: a valid request whose inference call succeeds but whose message
content is malformed or absent JSON does not fail: parsing degrades to an
empty object and the response is 200 with area_sqft 0, complexity 2.5, the
default notes string and method "ai". -/
theorem C4_malformed_content_defaults (p : Pricing) (key : Option String)
    (req : EstimateRequest) (out : JsVal) (cv : Option JsVal)
    (h1 : req.images ≠ []) (h2 : keyMissing key = false)
    (hex : extractContent out = some cv)
    (hmal : jsonParse (jsValToString (valOr cv (.jstr "\x7b\x7d"))) = none ∨
      valOr cv (.jstr "\x7b\x7d") = .jstr "\x7b\x7d") :
    ∃ b, POST p key req (.reply true (.json out)) = ⟨200, .est b, true⟩ ∧
      b.area_sqft = some 0 ∧ b.complexity = some (2.5 : ℚ) ∧
      b.notes = defaultNotes ∧ b.estimation_method = "ai" := by
  have hparse : (jsonParse (jsValToString (valOr cv (.jstr "\x7b\x7d")))).getD (.jobj []) =
      .jobj [] := by
    rcases hmal with h | h
    · rw [h]; rfl
    · rw [h]
      have hstr : jsValToString (JsVal.jstr "\x7b\x7d") = "\x7b\x7d" := by
        with_unfolding_all rfl
      rw [hstr, jsonParse_emptyObj]
      rfl
  have hnn : isNullVal ((jsonParse (jsValToString (valOr cv (.jstr "\x7b\x7d")))).getD
      (.jobj [])) = false := by rw [hparse]; rfl
  rw [POST_ai p key req out cv (isEmpty_false_of_ne_nil h1) h2 hex hnn, hparse, aiFields_emptyObj]
  obtain ⟨b, heq, _, harea, hcx, hnt, hm, _⟩ :=
    finishQuote_200 p (resolveService req.service) (some 0) (some (2.5 : ℚ))
      defaultNotes "ai" (req.images.map imageDataUrl).length
  exact ⟨b, heq, harea, hcx, hnt, hm⟩

theorem C4_witness :
    ∃ b, POST sampleP (some "k") ⟨some "house", [img1]⟩
        (.reply true (.json (mkOut "oops"))) = ⟨200, .est b, true⟩ ∧
      b.area_sqft = some 0 ∧ b.complexity = some (2.5 : ℚ) ∧
      b.notes = defaultNotes ∧ b.estimation_method = "ai" :=
  C4_malformed_content_defaults sampleP (some "k") ⟨some "house", [img1]⟩ (mkOut "oops")
    (some (.jstr "oops")) (by simp) rfl (by with_unfolding_all rfl)
    (.inl (by with_unfolding_all rfl))

/-- C7 (amended): the complexity echoed (and used for pricing) in a 200
response is clamped into [1, 5] whenever the model's value converts to a
number; a non-numeric value converts to NaN and yields NaN instead. -/
theorem C7_clamped_complexity_when_numeric (p : Pricing) (key : Option String)
    (req : EstimateRequest) (out : JsVal) (r : HandlerResult) (b : EstimateBody)
    (hr : POST p key req (.reply true (.json out)) = r) (hb : r.body = .est b) :
    b.complexity = none ∨ numInRange b.complexity 1 5 := by
  simp only [POST] at hr
  split at hr
  · subst hr; simp at hb
  · split at hr
    · subst hr; simp at hb
    · split at hr
      · rename_i hok
        exact absurd hok (by decide)
      · split at hr
        · subst hr; simp at hb
        · split at hr
          · subst hr; simp at hb
          · obtain ⟨b0, _, _, hb0, _, _, hcx0, _, _, _, _, _, _⟩ := finishQuote_inv hr
            rw [hb] at hb0
            injection hb0 with hbb
            subst hbb
            rcases hq : b.complexity with _ | q
            · exact Or.inl rfl
            · exact Or.inr ⟨q, rfl, aiFields_complexity_clamped (hcx0.symm.trans hq)⟩

theorem C7_counterexample :
    POST sampleP (some "k") ⟨some "house", [img1]⟩
        (.reply true (.json (mkOut "\x7b\"complexity\": \"abc\"\x7d"))) =
      ⟨200, .est ⟨"house", some 0, none, 1 / 4, none, none, defaultNotes, 1, "ai"⟩, true⟩ ∧
    ¬ numInRange none 1 5 := by
  constructor
  · with_unfolding_all rfl
  · rintro ⟨q, hq, -⟩
    exact Option.noConfusion hq

theorem C7_witness :
    (⟨"house", some 0, some 5, 1 / 4, some 5, some 99, defaultNotes, 1, "ai"⟩ :
        EstimateBody).complexity = none ∨
      numInRange (⟨"house", some 0, some 5, 1 / 4, some 5, some 99, defaultNotes, 1, "ai"⟩ :
        EstimateBody).complexity 1 5 :=
  C7_clamped_complexity_when_numeric sampleP (some "k") ⟨some "house", [img1]⟩
    (mkOut "\x7b\"complexity\": 9\x7d") _
    ⟨"house", some 0, some 5, 1 / 4, some 5, some 99, defaultNotes, 1, "ai"⟩
    (by with_unfolding_all rfl) (by with_unfolding_all rfl)

/-- C8 (amended): on the AI path the area_sqft field always equals
`Math.max(0, Number(parsed.area_sqft || 0))`; it is a non-negative number
whenever that conversion yields a number, and NaN when the model returned
a non-numeric area value. -/
theorem C8_area_formula_and_nonneg_when_numeric (p : Pricing) (key : Option String)
    (req : EstimateRequest) (out : JsVal) (r : HandlerResult) (b : EstimateBody)
    (hr : POST p key req (.reply true (.json out)) = r) (hb : r.body = .est b) :
    (∃ cv, extractContent out = some cv ∧
      b.area_sqft = jsMax (some 0) (toNumber (valOr
        (getProp ((jsonParse (jsValToString (valOr cv (.jstr "\x7b\x7d")))).getD (.jobj []))
          "area_sqft") (.jnum 0)))) ∧
    (b.area_sqft = none ∨ nonnegNum b.area_sqft) := by
  simp only [POST] at hr
  split at hr
  · subst hr; simp at hb
  · split at hr
    · subst hr; simp at hb
    · split at hr
      · rename_i hok
        exact absurd hok (by decide)
      · split at hr
        · subst hr; simp at hb
        · rename_i cv hex
          split at hr
          · subst hr; simp at hb
          · obtain ⟨b0, _, _, hb0, _, harea0, _, _, _, _, _, _, _⟩ := finishQuote_inv hr
            rw [hb] at hb0
            injection hb0 with hbb
            subst hbb
            refine ⟨⟨cv, hex, harea0⟩, ?_⟩
            rcases hq : b.area_sqft with _ | q
            · exact Or.inl rfl
            · exact Or.inr ⟨q, rfl, aiFields_area_nonneg (harea0.symm.trans hq)⟩

theorem C8_counterexample :
    POST sampleP (some "k") ⟨some "house", [img1]⟩
        (.reply true (.json (mkOut "\x7b\"area_sqft\": \"xyz\"\x7d"))) =
      ⟨200, .est ⟨"house", none, some (5 / 2 : ℚ), 1 / 4, some (5 / 2 : ℚ), none,
        defaultNotes, 1, "ai"⟩, true⟩ ∧
    ¬ nonnegNum none := by
  constructor
  · with_unfolding_all rfl
  · rintro ⟨q, hq, -⟩
    exact Option.noConfusion hq

theorem C8_witness :
    (∃ cv, extractContent (mkOut "\x7b\"area_sqft\": -50\x7d") = some cv ∧
      (⟨"house", some 0, some (5 / 2 : ℚ), 1 / 4, some (5 / 2 : ℚ), some 99,
          defaultNotes, 1, "ai"⟩ : EstimateBody).area_sqft =
        jsMax (some 0) (toNumber (valOr
          (getProp ((jsonParse (jsValToString (valOr cv (.jstr "\x7b\x7d")))).getD (.jobj []))
            "area_sqft") (.jnum 0)))) ∧
    ((⟨"house", some 0, some (5 / 2 : ℚ), 1 / 4, some (5 / 2 : ℚ), some 99,
        defaultNotes, 1, "ai"⟩ : EstimateBody).area_sqft = none ∨
      nonnegNum (⟨"house", some 0, some (5 / 2 : ℚ), 1 / 4, some (5 / 2 : ℚ), some 99,
        defaultNotes, 1, "ai"⟩ : EstimateBody).area_sqft) :=
  C8_area_formula_and_nonneg_when_numeric sampleP (some "k") ⟨some "house", [img1]⟩
    (mkOut "\x7b\"area_sqft\": -50\x7d") _
    ⟨"house", some 0, some (5 / 2 : ℚ), 1 / 4, some (5 / 2 : ℚ), some 99,
      defaultNotes, 1, "ai"⟩
    (by with_unfolding_all rfl) (by with_unfolding_all rfl)
